import Mathlib

/-!
Verification development for the `dingtalk-moltbot-connector` repository.

The Python modules `config.py`, `connector.py`, `media.py` and `handler.py`
are shallowly embedded below.  Pure computations become Lean functions;
the process-wide token cache becomes explicit state passing; fallible code
returns `Option`/`Except`; external effects (the HTTP transport, the JSON
parser of the standard library, the DingTalk SDK card object) enter the
functions as explicit inputs, so that every embedded function is total and
executable.  Spec-side restatements used for refinement checks are named
with a `spec`/`Resolves` vocabulary and are kept separate from the
embedded code.
-/

namespace DingtalkMoltbot

/- ===================== config.py ===================== -/

/-- Sentinel `_UNSET = "__UNSET__"` used by `ConnectorConfig` to tell
"argument not supplied" apart from "explicitly supplied empty string". -/
def UNSET : String := "__UNSET__"

/-- Constructor arguments of the `ConnectorConfig` dataclass, with the
dataclass field defaults (`_UNSET` for the five resolver-backed fields). -/
structure ConnectorConfigArgs where
  dingtalk_client_id : String := UNSET
  dingtalk_client_secret : String := UNSET
  gateway_url : String := UNSET
  model : String := UNSET
  system_prompt : String := ""
  enable_media_upload : Bool := true
  timeout : ℚ := 120
  gateway_token : String := UNSET
deriving Repr, DecidableEq

/-- The `ConnectorConfig` value after `__post_init__` ran. -/
structure ConnectorConfig where
  dingtalk_client_id : String
  dingtalk_client_secret : String
  gateway_url : String
  model : String
  system_prompt : String
  enable_media_upload : Bool
  timeout : ℚ
  gateway_token : String
deriving Repr, DecidableEq

/-- Embedding of `os.environ.get(key, "")`: the process environment is an
explicit partial map from variable names to values. -/
def osEnvGet (env : String → Option String) (key : String) : String :=
  (env key).getD ("")

/-- One step of `ConnectorConfig.__post_init__` for a single field:
`if getattr(self, attr) == _UNSET: setattr(self, attr, env_val if env_val
else default)`. -/
def resolve (env : String → Option String) (ctorVal envKey dflt : String) :
    String :=
  if ctorVal = UNSET then
    if osEnvGet env envKey ≠ ("") then osEnvGet env envKey else dflt
  else ctorVal

/-- `ConnectorConfig(...)` followed by `__post_init__`, using the
`_ENV_DEFAULTS` table of `config.py`. -/
def mkConnectorConfig (env : String → Option String)
    (a : ConnectorConfigArgs) : ConnectorConfig where
  dingtalk_client_id :=
    resolve env a.dingtalk_client_id ("DINGTALK_CLIENT_ID") ("")
  dingtalk_client_secret :=
    resolve env a.dingtalk_client_secret ("DINGTALK_CLIENT_SECRET") ("")
  gateway_url :=
    resolve env a.gateway_url ("MOLTBOT_GATEWAY_URL") ("http://127.0.0.1:18789")
  model := resolve env a.model ("MOLTBOT_MODEL") ("default")
  system_prompt := a.system_prompt
  enable_media_upload := a.enable_media_upload
  timeout := a.timeout
  gateway_token := resolve env a.gateway_token ("MOLTBOT_GATEWAY_TOKEN") ("")

/-- `ConnectorConfig.validate`: raises `ValueError` exactly when a required
credential is falsy (the empty string). -/
def validate (c : ConnectorConfig) : Except String Unit :=
  if c.dingtalk_client_id = ("") then
    Except.error ("缺少 dingtalk_client_id，请通过构造参数或环境变量 DINGTALK_CLIENT_ID 配置")
  else if c.dingtalk_client_secret = ("") then
    Except.error ("缺少 dingtalk_client_secret，请通过构造参数或环境变量 DINGTALK_CLIENT_SECRET 配置")
  else Except.ok ()

/- ===================== connector.py ===================== -/

/-- Keyword arguments of `MoltbotConnector.__init__`, with the concrete
Python defaults (plain strings, not the `_UNSET` sentinel). -/
structure MoltbotConnectorArgs where
  dingtalk_client_id : String := ""
  dingtalk_client_secret : String := ""
  gateway_url : String := "http://127.0.0.1:18789"
  model : String := "default"
  system_prompt : String := ""
  enable_media_upload : Bool := true
  timeout : ℚ := 120
  gateway_token : String := ""
deriving Repr, DecidableEq

/-- `MoltbotConnector.__init__` builds its `self.config` by forwarding every
keyword argument to `ConnectorConfig` explicitly. -/
def moltbotConnectorInit (env : String → Option String)
    (a : MoltbotConnectorArgs) : ConnectorConfig :=
  mkConnectorConfig env
    { dingtalk_client_id := a.dingtalk_client_id
      dingtalk_client_secret := a.dingtalk_client_secret
      gateway_url := a.gateway_url
      model := a.model
      system_prompt := a.system_prompt
      enable_media_upload := a.enable_media_upload
      timeout := a.timeout
      gateway_token := a.gateway_token }

/-- `MoltbotConnector.from_env()` is `cls()`: every constructor argument is
omitted, so every `__init__` default applies. -/
def moltbotConnectorFromEnv (env : String → Option String) : ConnectorConfig :=
  moltbotConnectorInit env {}

/- ===================== media.py ===================== -/

/-- Parsed JSON body of the DingTalk `gettoken` response, as read by
`get_dingtalk_access_token` through `data.get(...)`: every field may be
absent. -/
structure TokenResponse where
  errcode : Option Int := none
  access_token : Option String := none
  expires_in : Option ℚ := none
deriving Repr, DecidableEq

/-- Outcome of the `httpx.get` + `resp.json()` round trip inside
`get_dingtalk_access_token`: either a parsed JSON body, or an exception
(network error, JSON error, ...) carrying its message. -/
inductive FetchOutcome where
  | resp (r : TokenResponse)
  | exn (msg : String)
deriving Repr, DecidableEq

/-- The process-wide `_token_cache` dict, keyed by client id; an entry is
the `(token, expires_at)` pair.  Assignment is modelled by prepending, so
`List.lookup` sees the newest binding first, like a dict overwrite. -/
def TokenCache : Type := List (String × (String × ℚ))

/-- Empty `_token_cache`. -/
def emptyTokenCache : TokenCache := []

/-- Cache lookup, `_token_cache.get(cache_key)`. -/
def cacheGet (cache : TokenCache) (key : String) : Option (String × ℚ) :=
  List.lookup key cache

/-- Cache store, `_token_cache[cache_key] = (token, expires)`. -/
def cacheSet (cache : TokenCache) (key : String) (v : String × ℚ) :
    TokenCache :=
  (key, v) :: cache

/-- Result of one call to `get_dingtalk_access_token`: the returned value,
the token cache after the call, and whether a network fetch was issued. -/
structure TokenCallResult where
  token : Option String
  cache : TokenCache
  fetched : Bool

/-- The fetch-and-store tail of `get_dingtalk_access_token` (the `try`
block): on `errcode == 0` store the token with expiry
`time.time() + expires_in - 300` and return it; on any other response or
on an exception return `None` and leave the cache unchanged.  The function
returns; it never propagates an exception. -/
def fetchDingtalkAccessToken (cache : TokenCache) (now : ℚ)
    (clientId : String) (fetch : FetchOutcome) : TokenCallResult :=
  match fetch with
  | FetchOutcome.resp r =>
    if r.errcode = some 0 then
      let token := r.access_token.getD ("")
      let expiresIn := r.expires_in.getD 7200
      { token := some token
        cache := cacheSet cache clientId (token, now + expiresIn - 300)
        fetched := true }
    else { token := none, cache := cache, fetched := true }
  | FetchOutcome.exn _ => { token := none, cache := cache, fetched := true }

/-- `get_dingtalk_access_token(client_id, client_secret)`.  The wall clock
(`time.time()`) and the outcome the transport would produce if a fetch
happens are explicit inputs; the cache is threaded explicitly. -/
def getDingtalkAccessToken (cache : TokenCache) (now : ℚ)
    (clientId : String) (fetch : FetchOutcome) : TokenCallResult :=
  match cacheGet cache clientId with
  | some (token, expiresAt) =>
    if now < expiresAt then { token := some token, cache := cache, fetched := false }
    else fetchDingtalkAccessToken cache now clientId fetch
  | none => fetchDingtalkAccessToken cache now clientId fetch

/-- Text of the media-guidance f-string up to the first `{access_token}`
interpolation. -/
def mediaTemplatePart1 : String :=
  "## 钉钉图片显示规则（强制）\n\n你正在钉钉中与用户对话。钉钉**只能显示已上传的图片**，无法显示本地路径。\n\n### 禁止使用\n\n- `file://` 路径\n- `attachment://` 路径\n- `/tmp/xxx.jpg` 等本地路径\n- `https://static.dingtalk.com/media/xxx` 等猜测的 URL\n- 任何未经上传的图片链接\n\n### 正确方式\n\n**任何时候**需要向用户展示图片，都必须：\n\n1. **先上传**：执行 curl 命令上传到钉钉\n2. **确认成功**：检查返回的 media_id\n3. **再回复**：用 media_id 构造 markdown 图片\n\n### 上传命令\n\n```bash\ncurl -s -X POST \"https://oapi.dingtalk.com/media/upload?access_token="

/-- Text of the media-guidance f-string between the two `{access_token}`
interpolations. -/
def mediaTemplatePart2 : String :=
  "&type=image\" -F \"media=@/实际图片路径.jpg\"\n```\n\n### 返回格式\n\n```json\n\x7b\"errcode\":0,\"errmsg\":\"ok\",\"media_id\":\"@lADPxxxxxx\"\x7d\n```\n\n### 回复格式\n\n```markdown\n![描述](@lADPxxxxxx)\n```\n\n**注意**：media_id 以 `@` 开头，直接使用，不拼接任何 URL 前缀。\n\n### 工作流程示例\n\n用户说\"拍张照\"：\n1. 执行拍照，得到 `/tmp/camera-snap-xxx.jpg`\n2. 执行: `curl -s -X POST \"https://oapi.dingtalk.com/media/upload?access_token="

/-- Text of the media-guidance f-string after the second `{access_token}`
interpolation. -/
def mediaTemplatePart3 : String :=
  "&type=image\" -F \"media=@/tmp/camera-snap-xxx.jpg\"`\n3. 从返回中提取 `media_id`（如 `@lADPxxxxxx`）\n4. 回复: `这是拍摄的照片：![照片](@lADPxxxxxx)`\n\n**关键**：必须等 curl 执行成功并拿到 media_id 后，才能回复包含图片的消息！\n"

/-- The media-guidance f-string of `build_media_system_prompt` with the
access token formatted in at its two interpolation sites. -/
def mediaTemplate (accessToken : String) : String :=
  mediaTemplatePart1 ++ accessToken ++ mediaTemplatePart2 ++ accessToken ++
    mediaTemplatePart3

/-- `build_media_system_prompt`, abstracted over the value that
`get_dingtalk_access_token` returned: a falsy token (absent, or the empty
string) yields the empty prompt, otherwise the template is formatted. -/
def buildMediaSystemPrompt (accessToken : Option String) : String :=
  match accessToken with
  | none => ""
  | some t => if t = ("") then "" else mediaTemplate t

/- ===================== handler.py ===================== -/

/-- JSON values, the codomain of `json.loads`. -/
inductive JValue where
  | null
  | bool (b : Bool)
  | num (n : Int)
  | str (s : String)
  | arr (xs : List JValue)
  | obj (fields : List (String × JValue))

/-- Python truthiness of a JSON value (`if choices:`, `if content:`). -/
def JValue.truthy : JValue → Bool
  | JValue.null => false
  | JValue.bool b => b
  | JValue.num n => n != 0
  | JValue.str s => s != ("")
  | JValue.arr xs => !xs.isEmpty
  | JValue.obj fields => !fields.isEmpty

/-- Python `value.get(key, default)`: defined on dicts, an `AttributeError`
on every other JSON value. -/
def pyDictGet (v : JValue) (key : String) (dflt : JValue) :
    Except String JValue :=
  match v with
  | JValue.obj fields =>
    match List.lookup key fields with
    | some x => Except.ok x
    | none => Except.ok dflt
  | _ => Except.error ("AttributeError: object has no attribute get")

/-- Python `value[0]` on a JSON value: the head of a list, a one-character
string of a non-empty string, a `KeyError` on a dict (whose JSON keys are
strings, never the integer `0`), a `TypeError` otherwise. -/
def pyIndexZero : JValue → Except String JValue
  | JValue.arr [] => Except.error ("IndexError: list index out of range")
  | JValue.arr (x :: _) => Except.ok x
  | JValue.str s =>
    match s.data with
    | [] => Except.error ("IndexError: string index out of range")
    | c :: _ => Except.ok (JValue.str (String.mk [c]))
  | JValue.obj _ => Except.error ("KeyError: 0")
  | _ => Except.error ("TypeError: object is not subscriptable")

/-- Body of the per-frame block of `_stream_from_gateway` after a
successful `json.loads`:
`choices = chunk.get("choices", []); if choices: content =
choices[0].get("delta", {}).get("content", ""); if content: yield content`.
Returns the yielded value, `none` when nothing is yielded, or the
uncaught exception (only `json.JSONDecodeError` is caught by the code,
and that one can no longer occur here). -/
def processChunk (chunk : JValue) : Except String (Option JValue) :=
  match pyDictGet chunk ("choices") (JValue.arr []) with
  | Except.error e => Except.error e
  | Except.ok choices =>
    if choices.truthy then
      match pyIndexZero choices with
      | Except.error e => Except.error e
      | Except.ok c0 =>
        match pyDictGet c0 ("delta") (JValue.obj []) with
        | Except.error e => Except.error e
        | Except.ok delta =>
          match pyDictGet delta ("content") (JValue.str ("")) with
          | Except.error e => Except.error e
          | Except.ok content =>
            Except.ok (if content.truthy then some content else none)
    else Except.ok none

/-- Character-list test that `p` is an initial segment of `s`. -/
def charsLead : List Char → List Char → Bool
  | [], _ => true
  | _ :: _, [] => false
  | p :: ps, c :: cs => p == c && charsLead ps cs

/-- Python `line.startswith(p)` over code points. -/
def strLeads (p s : String) : Bool := charsLead p.data s.data

/-- Python `line[n:]` over code points. -/
def strDrop (s : String) (n : Nat) : String := String.mk (s.data.drop n)

/-- The `async for line in response.aiter_lines()` loop of
`_stream_from_gateway`.  `parse` stands for `json.loads`: `none` models a
`json.JSONDecodeError`, `some v` the parsed value.  The result is the list
of yielded fragments together with the uncaught exception, if one ended
the generator early. -/
def processLines (parse : String → Option JValue) :
    List String → List JValue × Option String
  | [] => ([], none)
  | line :: rest =>
    if line == ("") || !strLeads ("data: ") line then processLines parse rest
    else
      let data := strDrop line 6
      if data == ("[DONE]") then ([], none)
      else
        match parse data with
        | none => processLines parse rest
        | some chunk =>
          match processChunk chunk with
          | Except.error e => ([], some e)
          | Except.ok none => processLines parse rest
          | Except.ok (some content) =>
            let tail := processLines parse rest
            (content :: tail.1, tail.2)

/-- Message of the error raised on a non-200 initial response:
`f"Gateway 返回 {response.status_code}: {error_body.decode(...)}"`. -/
def gatewayErrorMsg (status : Nat) (body : String) : String :=
  ("Gateway 返回 ") ++ toString status ++ (": ") ++ body

/-- `_stream_from_gateway` from the moment the response status is known:
a non-200 status raises before anything is yielded, otherwise the SSE
line loop runs. -/
def streamFromGateway (status : Nat) (body : String)
    (parse : String → Option JValue) (lines : List String) :
    List JValue × Option String :=
  if status ≠ 200 then ([], some (gatewayErrorMsg status body))
  else processLines parse lines

/-- One chat message of the outbound `messages` list. -/
structure Message where
  role : String
  content : String
deriving Repr, DecidableEq

/-- The `messages` assembly of `_stream_from_gateway` (lines 88-104):
optional media-guidance system message, optional configured system prompt,
then the user message.  `accessToken` is the value
`get_dingtalk_access_token` produced for the configured credentials. -/
def buildMessages (enableMediaUpload : Bool) (accessToken : Option String)
    (systemPrompt : String) (userContent : String) : List Message :=
  (if enableMediaUpload then
    (if buildMediaSystemPrompt accessToken ≠ ("") then
      [Message.mk ("system") (buildMediaSystemPrompt accessToken)]
    else [])
  else []) ++
  (if systemPrompt ≠ ("") then [Message.mk ("system") systemPrompt] else []) ++
  [Message.mk ("user") userContent]

/-- Acknowledgment returned by `MoltbotChatbotHandler.process`: either
`(AckMessage.STATUS_OK, "ok")` or
`(AckMessage.STATUS_SYSTEM_EXCEPTION, str(e))`. -/
inductive Ack where
  | ok
  | systemException (msg : String)
deriving Repr, DecidableEq

/-- One call made on the AI card object. -/
inductive CardCall where
  | update (accumulated : String)
  | finish (accumulated : String)
deriving Repr, DecidableEq

/-- The marker appended to the accumulator when the adapter raises
mid-stream in card mode: `f"\n\n⚠️ 响应中断: {e}"`. -/
def errMarker (e : String) : String := ("\n\n⚠️ 响应中断: ") ++ e

/-- The `async for` loop of the card branch: starting from `acc`, append
each fragment and push the whole accumulator once per fragment.  Returns
the final accumulator and the update calls, in order. -/
def accumulate : List String → String → String × List CardCall
  | [], acc => (acc, [])
  | chunk :: rest, acc =>
    let acc2 := acc ++ chunk
    let tail := accumulate rest acc2
    (tail.1, CardCall.update acc2 :: tail.2)

/-- Everything `process` did for one inbound message: the acknowledgment,
the card calls (card mode), and the `reply_text` payloads (fallback
mode). -/
structure ProcessResult where
  ack : Ack
  cardCalls : List CardCall
  textReplies : List String
deriving Repr, DecidableEq

/-- `MoltbotChatbotHandler.process`.  `parseResult` is the outcome of
`ChatbotMessage.from_dict(callback.data)` plus the `.text.content` read
(an exception there is caught only by the outer handler); `cardMode`
states whether `ai_markdown_card_start` produced a card with a truthy
`card_instance_id` (every exception there is caught and maps to the
fallback); `streamResult` is what the `_stream_from_gateway` generator
produced: the yielded fragments and the exception, if any, that ended it
early. -/
def process (parseResult : Except String String) (cardMode : Bool)
    (streamResult : List String × Option String) : ProcessResult :=
  match parseResult with
  | Except.error e =>
    { ack := Ack.systemException e, cardCalls := [], textReplies := [] }
  | Except.ok content =>
    let _userContent := content.trim
    if cardMode then
      let acc := accumulate streamResult.1 ("")
      match streamResult.2 with
      | none =>
        { ack := Ack.ok
          cardCalls := acc.2 ++ [CardCall.finish acc.1]
          textReplies := [] }
      | some e =>
        let acc2 := acc.1 ++ errMarker e
        { ack := Ack.ok
          cardCalls := acc.2 ++ [CardCall.update acc2, CardCall.finish acc2]
          textReplies := [] }
    else
      match streamResult.2 with
      | none =>
        let full := (accumulate streamResult.1 ("")).1
        { ack := Ack.ok
          cardCalls := []
          textReplies := [if full = ("") then ("（无响应）") else full] }
      | some e =>
        { ack := Ack.ok
          cardCalls := []
          textReplies := [("抱歉，处理请求时出错: ") ++ e] }

/- ============ spec-side statements (from the claims' words) ============ -/

/-- Statement side of claim C1, for one resolver-backed field: an explicit
constructor value is kept; for the sentinel a non-empty environment value
is used; otherwise the fixed default. -/
def ResolvesFrom (env : String → Option String)
    (resolved ctorVal envKey dflt : String) : Prop :=
  (ctorVal ≠ UNSET → resolved = ctorVal) ∧
  (ctorVal = UNSET → osEnvGet env envKey ≠ ("") → resolved = osEnvGet env envKey) ∧
  (ctorVal = UNSET → osEnvGet env envKey = ("") → resolved = dflt)

/-- Shape check on a parsed SSE payload under which the per-frame code of
`_stream_from_gateway` cannot raise: the payload is a JSON object, and the
value under `"choices"`, when present and truthy, is a non-empty array
whose head is an object whose `"delta"` entry, when present, is an
object. -/
def wellFormedChunk : JValue → Bool
  | JValue.obj fields =>
    match List.lookup ("choices") fields with
    | none => true
    | some choices =>
      if choices.truthy then
        match choices with
        | JValue.arr (JValue.obj cfields :: _) =>
          (match List.lookup ("delta") cfields with
          | none => true
          | some (JValue.obj _) => true
          | some _ => false)
        | _ => false
      else true
  | _ => false

/-- Statement side of claim C3: the non-empty `choices[0].delta.content`
value of a well-formed envelope, if any. -/
def specDeltaContent : JValue → Option JValue
  | JValue.obj fields =>
    match List.lookup ("choices") fields with
    | some (JValue.arr (JValue.obj cfields :: _)) =>
      (match List.lookup ("delta") cfields with
      | some (JValue.obj dfields) =>
        (match List.lookup ("content") dfields with
        | some c => if c.truthy then some c else none
        | none => none)
      | _ => none)
    | _ => none
  | _ => none

/-- Statement side of claim C3: the fragments an SSE line sequence is
claimed to produce — the non-empty delta contents of the `data: ` lines
in arrival order, stopping at `data: [DONE]`, with unprefixed and
unparsable lines skipped. -/
def specYields (parse : String → Option JValue) : List String → List JValue
  | [] => []
  | line :: rest =>
    if line == ("") || !strLeads ("data: ") line then specYields parse rest
    else
      if strDrop line 6 == ("[DONE]") then []
      else
        match parse (strDrop line 6) with
        | none => specYields parse rest
        | some chunk =>
          match specDeltaContent chunk with
          | some c => c :: specYields parse rest
          | none => specYields parse rest

/-- Hypothesis of the amended claim C3: a line is harmless (skipped,
terminator, or unparsable) or its payload is well-formed. -/
def lineOK (parse : String → Option JValue) (line : String) : Bool :=
  if line == ("") || !strLeads ("data: ") line then true
  else
    if strDrop line 6 == ("[DONE]") then true
    else
      match parse (strDrop line 6) with
      | none => true
      | some chunk => wellFormedChunk chunk

/-- Statement side of claim C2: the successive whole-accumulator values
pushed to the card, one per fragment. -/
def specUpdates (acc : String) : List String → List String
  | [] => []
  | f :: fs => (acc ++ f) :: specUpdates (acc ++ f) fs

/-- Statement side of claim C2: the final accumulator after appending every
fragment. -/
def specFinal (acc : String) : List String → String
  | [] => acc
  | f :: fs => specFinal (acc ++ f) fs

/-- Number of `finish` calls in a card-call trace. -/
def countFinish (calls : List CardCall) : Nat :=
  (calls.filter (fun c =>
    match c with
    | CardCall.finish _ => true
    | CardCall.update _ => false)).length

/-- Cache test used to phrase claims C4 and C7: the cache holds an entry
for the client whose expiry lies strictly in the future. -/
def hasValidCachedToken (cache : TokenCache) (clientId : String) (now : ℚ) :
    Bool :=
  match cacheGet cache clientId with
  | some (_, expiresAt) => decide (now < expiresAt)
  | none => false

/- ===================== concrete inputs for witnesses ===================== -/

/-- Environment with a client id and a gateway token set. -/
def envW : String → Option String := fun k =>
  if k == ("DINGTALK_CLIENT_ID") then some ("env-client-id")
  else if k == ("MOLTBOT_GATEWAY_TOKEN") then some ("env-token")
  else none

/-- Constructor arguments: client id and model left unset, secret supplied,
gateway token explicitly the empty string. -/
def argsW : ConnectorConfigArgs :=
  { dingtalk_client_secret := "secret-value", gateway_token := "" }

/-- A well-formed streaming envelope carrying the fragment `"Hi"`. -/
def chunkHi : JValue :=
  JValue.obj [(("choices"),
    JValue.arr [JValue.obj [(("delta"),
      JValue.obj [(("content"), JValue.str ("Hi"))])]])]

/-- A well-formed streaming envelope carrying the fragment `" there"`. -/
def chunkThere : JValue :=
  JValue.obj [(("choices"),
    JValue.arr [JValue.obj [(("delta"),
      JValue.obj [(("content"), JValue.str (" there"))])]])]

/-- Serialized form of `chunkHi`. -/
def jsonHi : String :=
  "\x7b\"choices\":[\x7b\"delta\":\x7b\"content\":\"Hi\"\x7d\x7d]\x7d"

/-- Serialized form of `chunkThere`. -/
def jsonThere : String :=
  "\x7b\"choices\":[\x7b\"delta\":\x7b\"content\":\" there\"\x7d\x7d]\x7d"

/-- `json.loads` on the strings a well-behaved gateway sends in the witness
scenario; everything else is a parse error. -/
def parseW : String → Option JValue := fun s =>
  if s == jsonHi then some chunkHi
  else if s == jsonThere then some chunkThere
  else none

/-- SSE lines of the witness scenario: two well-formed frames, an empty
line, an unprefixed line, an unparsable frame, the terminator, and a
frame after the terminator. -/
def linesW : List String :=
  [("data: ") ++ jsonHi, (""), ("event: ping"), ("data: \x7bbad json"),
   ("data: ") ++ jsonThere, ("data: [DONE]"), ("data: ") ++ jsonHi]

/-- `json.loads` for the counterexample: the payload `[1,2]` is valid JSON
(a JSON array); everything else is a parse error. -/
def parseCE : String → Option JValue := fun s =>
  if s == ("[1,2]") then some (JValue.arr [JValue.num 1, JValue.num 2])
  else none

/-- SSE lines of the counterexample: one `data:` line whose payload is
valid JSON but not an object, then the terminator. -/
def linesCE : List String := [("data: [1,2]"), ("data: [DONE]")]

/-- Successful token-issuance response used in witnesses. -/
def rW : TokenResponse :=
  { errcode := some 0, access_token := some ("tokA"), expires_in := some 7200 }

/-- Token cache after a first successful fetch at time 1000. -/
def c4cache1 : TokenCache :=
  (getDingtalkAccessToken emptyTokenCache 1000 ("app") (FetchOutcome.resp rW)).cache

/- ===================== helper lemmas ===================== -/

theorem resolve_of_supplied (env : String → Option String)
    (v k d : String) (h : v ≠ UNSET) : resolve env v k d = v := by
  simp [resolve, h]

theorem resolve_of_unset_env (env : String → Option String)
    (v k d : String) (h : v = UNSET) (h2 : osEnvGet env k ≠ ("")) :
    resolve env v k d = osEnvGet env k := by
  simp [resolve, h, h2]

theorem resolve_of_unset_default (env : String → Option String)
    (v k d : String) (h : v = UNSET) (h2 : osEnvGet env k = ("")) :
    resolve env v k d = d := by
  simp [resolve, h, h2]

theorem strAppendAssoc (a b c : String) : a ++ b ++ c = a ++ (b ++ c) := by
  rcases a with ⟨da⟩; rcases b with ⟨db⟩; rcases c with ⟨dc⟩
  show String.mk (da ++ db ++ dc) = String.mk (da ++ (db ++ dc))
  rw [List.append_assoc]

theorem strAppendEmpty (a : String) : a ++ ("") = a := by
  rcases a with ⟨da⟩
  show String.mk (da ++ []) = String.mk da
  rw [List.append_nil]

/- ===================== claim theorems ===================== -/

/-- Claim C1: for every `ConnectorConfig` field backed by the three-source
resolver (client id, client secret, gateway_url, model, gateway_token),
an explicitly supplied constructor value is kept — including an explicitly
supplied empty string; when the constructor value is the `_UNSET` sentinel,
a non-empty environment variable value is used, and otherwise the fixed
default. -/
theorem c1_config_three_source_resolution (env : String → Option String)
    (a : ConnectorConfigArgs) :
    ResolvesFrom env (mkConnectorConfig env a).dingtalk_client_id
      a.dingtalk_client_id ("DINGTALK_CLIENT_ID") ("") ∧
    ResolvesFrom env (mkConnectorConfig env a).dingtalk_client_secret
      a.dingtalk_client_secret ("DINGTALK_CLIENT_SECRET") ("") ∧
    ResolvesFrom env (mkConnectorConfig env a).gateway_url
      a.gateway_url ("MOLTBOT_GATEWAY_URL") ("http://127.0.0.1:18789") ∧
    ResolvesFrom env (mkConnectorConfig env a).model
      a.model ("MOLTBOT_MODEL") ("default") ∧
    ResolvesFrom env (mkConnectorConfig env a).gateway_token
      a.gateway_token ("MOLTBOT_GATEWAY_TOKEN") ("") := by
  refine ⟨?_, ?_, ?_, ?_, ?_⟩ <;>
    exact ⟨fun h => resolve_of_supplied _ _ _ _ h,
           fun h h2 => resolve_of_unset_env _ _ _ _ h h2,
           fun h h2 => resolve_of_unset_default _ _ _ _ h h2⟩

/-- Witness for C1: under `envW`, the unset client id resolves to the
environment value, the explicitly empty gateway token stays empty even
though the environment has a value, and the unset model falls back to its
default. -/
theorem c1_config_three_source_resolution_witness :
    (mkConnectorConfig envW argsW).dingtalk_client_id = ("env-client-id") ∧
    (mkConnectorConfig envW argsW).gateway_token = ("") ∧
    (mkConnectorConfig envW argsW).model = ("default") := by
  have h := c1_config_three_source_resolution envW argsW
  exact ⟨h.1.2.1 (by decide) (by decide),
         (h.2.2.2.2).1 (by decide),
         (h.2.2.2.1).2.2 (by decide) (by decide)⟩

/-- Claim C6: `validate` produces a configuration error exactly when the
resolved client id or the resolved client secret is the empty string; with
both non-empty it returns successfully.  The embedded `validate` is a pure
function of the config alone — no network input occurs in it. -/
theorem c6_validate_iff (c : ConnectorConfig) :
    (∃ e, validate c = Except.error e) ↔
      (c.dingtalk_client_id = ("") ∨ c.dingtalk_client_secret = ("")) := by
  by_cases h1 : c.dingtalk_client_id = ("") <;>
    by_cases h2 : c.dingtalk_client_secret = ("") <;>
      simp [validate, h1, h2]

/-- Claim C10: `MoltbotConnector.__init__` forwards concrete strings (never
the `_UNSET` sentinel) for every argument, so the resolved config does not
depend on the environment; `from_env()` — `cls()` with every argument
omitted — yields the fixed default config with empty credentials under
every environment, and `validate` (called by `start()`) then raises. -/
theorem c10_connector_ignores_env (env env2 : String → Option String)
    (a : MoltbotConnectorArgs)
    (h1 : a.dingtalk_client_id ≠ UNSET) (h2 : a.dingtalk_client_secret ≠ UNSET)
    (h3 : a.gateway_url ≠ UNSET) (h4 : a.model ≠ UNSET)
    (h5 : a.gateway_token ≠ UNSET) :
    moltbotConnectorInit env a = moltbotConnectorInit env2 a ∧
    moltbotConnectorFromEnv env =
      { dingtalk_client_id := ""
        dingtalk_client_secret := ""
        gateway_url := "http://127.0.0.1:18789"
        model := "default"
        system_prompt := ""
        enable_media_upload := true
        timeout := 120
        gateway_token := "" } ∧
    (a.dingtalk_client_id = ("") →
      ∃ m, validate (moltbotConnectorInit env a) = Except.error m) := by
  refine ⟨?_, rfl, ?_⟩
  · simp [moltbotConnectorInit, mkConnectorConfig, resolve, h1, h2, h3, h4, h5]
  · intro h
    have hid : (moltbotConnectorInit env a).dingtalk_client_id = ("") := by
      show resolve env a.dingtalk_client_id ("DINGTALK_CLIENT_ID") ("") = ("")
      rw [resolve_of_supplied env _ _ _ h1, h]
    refine ⟨("缺少 dingtalk_client_id，请通过构造参数或环境变量 DINGTALK_CLIENT_ID 配置"), ?_⟩
    simp [validate, hid]

/-- Witness for C10: with every argument omitted, a populated environment
and the empty environment produce the same config, and `validate` fails on
it. -/
theorem c10_connector_ignores_env_witness :
    moltbotConnectorFromEnv envW = moltbotConnectorFromEnv (fun _ => none) ∧
    (∃ m, validate (moltbotConnectorFromEnv envW) = Except.error m) := by
  have h := c10_connector_ignores_env envW (fun _ => none) {}
    (by decide) (by decide) (by decide) (by decide) (by decide)
  exact ⟨h.1, h.2.2 rfl⟩

theorem getToken_of_noValid (cache : TokenCache) (now : ℚ) (clientId : String)
    (fetch : FetchOutcome) (h : hasValidCachedToken cache clientId now = false) :
    getDingtalkAccessToken cache now clientId fetch
      = fetchDingtalkAccessToken cache now clientId fetch := by
  cases hc : cacheGet cache clientId with
  | none => simp [getDingtalkAccessToken, hc]
  | some p =>
    obtain ⟨tk, expiresAt⟩ := p
    have hlt : ¬ now < expiresAt := by
      simpa [hasValidCachedToken, hc] using h
    simp [getDingtalkAccessToken, hc, hlt]

theorem fetch_always_fetched (cache : TokenCache) (now : ℚ) (clientId : String)
    (fetch : FetchOutcome) :
    (fetchDingtalkAccessToken cache now clientId fetch).fetched = true := by
  cases fetch with
  | resp r =>
    by_cases h : r.errcode = some 0 <;> simp [fetchDingtalkAccessToken, h]
  | exn m => rfl

/-- Claim C4: with no valid cached entry, a call fetches; the stored expiry
is the fetch time plus the issued `expires_in` minus the 300-second margin;
a second call strictly before that expiry returns the cached token with no
fetch and an unchanged cache; a call at or after the expiry fetches
again. -/
theorem c4_token_cache (cache : TokenCache) (clientId tok : String)
    (t1 t2 expiresIn : ℚ) (r : TokenResponse) (f2 : FetchOutcome)
    (hmiss : hasValidCachedToken cache clientId t1 = false)
    (hcode : r.errcode = some 0) (htok : r.access_token = some tok)
    (hexp : r.expires_in = some expiresIn) :
    (getDingtalkAccessToken cache t1 clientId (FetchOutcome.resp r)).fetched
      = true ∧
    (getDingtalkAccessToken cache t1 clientId (FetchOutcome.resp r)).token
      = some tok ∧
    cacheGet (getDingtalkAccessToken cache t1 clientId
        (FetchOutcome.resp r)).cache clientId
      = some (tok, t1 + expiresIn - 300) ∧
    (t2 < t1 + expiresIn - 300 →
      getDingtalkAccessToken (getDingtalkAccessToken cache t1 clientId
          (FetchOutcome.resp r)).cache t2 clientId f2
        = { token := some tok
            cache := (getDingtalkAccessToken cache t1 clientId
              (FetchOutcome.resp r)).cache
            fetched := false }) ∧
    (t1 + expiresIn - 300 ≤ t2 →
      (getDingtalkAccessToken (getDingtalkAccessToken cache t1 clientId
          (FetchOutcome.resp r)).cache t2 clientId f2).fetched = true) := by
  have hcall1 : getDingtalkAccessToken cache t1 clientId (FetchOutcome.resp r)
      = { token := some tok
          cache := cacheSet cache clientId (tok, t1 + expiresIn - 300)
          fetched := true } := by
    rw [getToken_of_noValid _ _ _ _ hmiss]
    simp [fetchDingtalkAccessToken, hcode, htok, hexp]
  have hget : cacheGet (cacheSet cache clientId (tok, t1 + expiresIn - 300))
      clientId = some (tok, t1 + expiresIn - 300) := by
    simp [cacheGet, cacheSet, List.lookup]
  refine ⟨by rw [hcall1], by rw [hcall1], by rw [hcall1]; exact hget, ?_, ?_⟩
  · intro hlt
    rw [hcall1]
    simp [getDingtalkAccessToken, hget, hlt]
  · intro hge
    rw [hcall1]
    have hlt : ¬ t2 < t1 + expiresIn - 300 := not_lt.mpr hge
    simp only [getDingtalkAccessToken, hget, hlt, if_false]
    exact fetch_always_fetched _ _ _ _

/-- Witness for C4: first call at time 1000 fetches and caches expiry
1000 + 7200 - 300 = 7900; a call at 5000 returns the cached token without
fetching even though the transport would fail; a call at 9000 fetches
again. -/
theorem c4_token_cache_witness :
    (getDingtalkAccessToken emptyTokenCache 1000 ("app")
      (FetchOutcome.resp rW)).fetched = true ∧
    getDingtalkAccessToken c4cache1 5000 ("app") (FetchOutcome.exn ("net down"))
      = { token := some ("tokA"), cache := c4cache1, fetched := false } ∧
    (getDingtalkAccessToken c4cache1 9000 ("app")
      (FetchOutcome.resp rW)).fetched = true := by
  have h := c4_token_cache emptyTokenCache ("app") ("tokA") 1000 5000 7200 rW
    (FetchOutcome.exn ("net down")) (by decide) rfl rfl rfl
  have h9 := c4_token_cache emptyTokenCache ("app") ("tokA") 1000 9000 7200 rW
    (FetchOutcome.resp rW) (by decide) rfl rfl rfl
  exact ⟨h.1, h.2.2.2.1 (by norm_num), h9.2.2.2.2 (by norm_num)⟩

/-- Claim C7: when no valid cache entry exists and the fetch fails — a
response with a non-zero (or missing) `errcode`, or an exception from the
request or parse — `get_dingtalk_access_token` returns `None` and leaves
the cache unchanged.  The embedding is a total function: every failure is
a returned value, never a propagated exception. -/
theorem c7_token_fetch_failure (cache : TokenCache) (now : ℚ)
    (clientId : String)
    (hmiss : hasValidCachedToken cache clientId now = false) :
    (∀ r : TokenResponse, r.errcode ≠ some 0 →
      getDingtalkAccessToken cache now clientId (FetchOutcome.resp r)
        = { token := none, cache := cache, fetched := true }) ∧
    (∀ m, getDingtalkAccessToken cache now clientId (FetchOutcome.exn m)
        = { token := none, cache := cache, fetched := true }) := by
  constructor
  · intro r hr
    rw [getToken_of_noValid _ _ _ _ hmiss]
    simp [fetchDingtalkAccessToken, hr]
  · intro m
    rw [getToken_of_noValid _ _ _ _ hmiss]
    rfl

/-- Witness for C7: an error response (`errcode` 40078) and a network
exception both produce `None` with an unchanged empty cache. -/
theorem c7_token_fetch_failure_witness :
    getDingtalkAccessToken emptyTokenCache 1000 ("app")
      (FetchOutcome.resp { errcode := some 40078 })
      = { token := none, cache := emptyTokenCache, fetched := true } ∧
    getDingtalkAccessToken emptyTokenCache 1000 ("app")
      (FetchOutcome.exn ("timeout"))
      = { token := none, cache := emptyTokenCache, fetched := true } := by
  have h := c7_token_fetch_failure emptyTokenCache 1000 ("app") (by decide)
  exact ⟨h.1 _ (by decide), h.2 ("timeout")⟩

/-- Claim C5: a non-200 initial response makes the streaming adapter raise
before yielding anything, with a message that contains the decimal status
code and the response body. -/
theorem c5_non200_aborts (status : Nat) (body : String)
    (parse : String → Option JValue) (lines : List String)
    (h : status ≠ 200) :
    (streamFromGateway status body parse lines).1 = [] ∧
    ∃ msg, (streamFromGateway status body parse lines).2 = some msg ∧
      (∃ a b, msg = a ++ toString status ++ b) ∧
      (∃ c d, msg = c ++ body ++ d) := by
  have hmsg : streamFromGateway status body parse lines
      = ([], some (gatewayErrorMsg status body)) := by
    simp [streamFromGateway, h]
  refine ⟨by rw [hmsg], gatewayErrorMsg status body, by rw [hmsg], ?_, ?_⟩
  · exact ⟨("Gateway 返回 "), ((": ") ++ body), strAppendAssoc _ _ _⟩
  · exact ⟨("Gateway 返回 ") ++ toString status ++ (": "), (""),
      (strAppendEmpty _).symm⟩

/-- Witness for C5: a 500 with body `"server error"` yields nothing and
raises with both pieces in the message. -/
theorem c5_non200_aborts_witness :
    (streamFromGateway 500 ("server error") (fun _ => none) []).1 = [] ∧
    ∃ msg, (streamFromGateway 500 ("server error") (fun _ => none) []).2
        = some msg ∧
      (∃ a b, msg = a ++ toString 500 ++ b) ∧
      (∃ c d, msg = c ++ ("server error") ++ d) :=
  c5_non200_aborts 500 ("server error") (fun _ => none) [] (by decide)

theorem accumulate_eq (fs : List String) (acc : String) :
    accumulate fs acc
      = (specFinal acc fs, (specUpdates acc fs).map CardCall.update) := by
  induction fs generalizing acc with
  | nil => rfl
  | cons f rest ih => simp [accumulate, specFinal, specUpdates, ih]

theorem countFinish_map_update (l : List String) (rest : List CardCall) :
    countFinish (l.map CardCall.update ++ rest) = countFinish rest := by
  induction l with
  | nil => rfl
  | cons x t ih => simp [countFinish, List.filter, ih]

/-- Claim C2: in card mode, each fragment is appended to the accumulator
and the whole accumulator is pushed once per fragment; on a mid-stream
adapter exception one more update carrying the error marker is pushed; in
both cases exactly one finish call is made, with the final accumulator
contents; the fragments `"Hi"`, `" there"` produce updates `"Hi"` and
`"Hi there"` and a finish with `"Hi there"`. -/
theorem c2_card_streaming (u e : String) (fs : List String) :
    (process (Except.ok u) true (fs, none)).cardCalls
      = (specUpdates ("") fs).map CardCall.update
        ++ [CardCall.finish (specFinal ("") fs)] ∧
    (process (Except.ok u) true (fs, some e)).cardCalls
      = (specUpdates ("") fs).map CardCall.update
        ++ [CardCall.update (specFinal ("") fs ++ errMarker e),
            CardCall.finish (specFinal ("") fs ++ errMarker e)] ∧
    countFinish (process (Except.ok u) true (fs, none)).cardCalls = 1 ∧
    countFinish (process (Except.ok u) true (fs, some e)).cardCalls = 1 ∧
    (process (Except.ok ("hello")) true ([("Hi"), (" there")], none)).cardCalls
      = [CardCall.update ("Hi"), CardCall.update ("Hi there"),
         CardCall.finish ("Hi there")] := by
  have h1 : (process (Except.ok u) true (fs, none)).cardCalls
      = (specUpdates ("") fs).map CardCall.update
        ++ [CardCall.finish (specFinal ("") fs)] := by
    simp [process, accumulate_eq]
  have h2 : (process (Except.ok u) true (fs, some e)).cardCalls
      = (specUpdates ("") fs).map CardCall.update
        ++ [CardCall.update (specFinal ("") fs ++ errMarker e),
            CardCall.finish (specFinal ("") fs ++ errMarker e)] := by
    simp [process, accumulate_eq]
  refine ⟨h1, h2, ?_, ?_, by decide⟩
  · rw [h1, countFinish_map_update]; rfl
  · rw [h2, countFinish_map_update]; rfl

/-- Claim C9: the acknowledgment returned by `process` is always one of the
two statuses: OK whenever the inbound message was parsed — even when the
gateway stream failed, in card mode or in the text fallback, because the
failure was surfaced as message content — and the system-exception status
carrying the exception text when the failure happened before any reply
path was attempted. -/
theorem c9_ack_outcomes (e u m : String) (c : Bool)
    (s : List String × Option String) :
    process (Except.error e) c s
      = { ack := Ack.systemException e, cardCalls := [], textReplies := [] } ∧
    (process (Except.ok u) c s).ack = Ack.ok ∧
    (process (Except.ok u) false (s.1, some m)).textReplies
      = [("抱歉，处理请求时出错: ") ++ m] ∧
    ((process (Except.ok u) c s).ack = Ack.ok ∨
      ∃ msg, (process (Except.ok u) c s).ack = Ack.systemException msg) := by
  have hok : (process (Except.ok u) c s).ack = Ack.ok := by
    obtain ⟨fs, err⟩ := s
    cases c <;> cases err <;> rfl
  exact ⟨rfl, hok, rfl, Or.inl hok⟩

theorem mediaPromptNonemptyImpliesToken (tok : Option String)
    (h : buildMediaSystemPrompt tok ≠ ("")) :
    ∃ t, tok = some t ∧ t ≠ ("") := by
  cases tok with
  | none => simp [buildMediaSystemPrompt] at h
  | some t =>
    refine ⟨t, rfl, ?_⟩
    intro ht
    simp [buildMediaSystemPrompt, ht] at h

theorem getLastAppendSingleton {α : Type} (l : List α) (x : α) :
    (l ++ [x]).getLast? = some x := by
  rw [List.getLast?_append_cons]
  rfl

/-- Claim C8: the outbound message list is media-guidance system message
(only when media upload is enabled and the token fetch succeeded with a
non-empty token), then the caller-supplied system prompt (only when
non-empty), then the user message last; with media upload enabled and a
failed token fetch, no media-guidance message is present but the user
message is still sent. -/
theorem c8_message_assembly (enable : Bool) (tok : Option String)
    (sys u : String) :
    (∃ mediaPart sysPart,
      buildMessages enable tok sys u
        = mediaPart ++ (sysPart ++ [Message.mk ("user") u]) ∧
      (mediaPart = [] ∨
        (enable = true ∧ (∃ t, tok = some t ∧ t ≠ ("")) ∧
          mediaPart = [Message.mk ("system") (buildMediaSystemPrompt tok)])) ∧
      ((sys = ("") ∧ sysPart = []) ∨
        (sys ≠ ("") ∧ sysPart = [Message.mk ("system") sys]))) ∧
    (tok = none →
      buildMessages enable tok sys u
        = (if sys = ("") then [] else [Message.mk ("system") sys])
          ++ [Message.mk ("user") u]) ∧
    (buildMessages enable tok sys u).getLast? = some (Message.mk ("user") u) := by
  refine ⟨?_, ?_, ?_⟩
  · refine ⟨(if enable then
        (if buildMediaSystemPrompt tok ≠ ("") then
          [Message.mk ("system") (buildMediaSystemPrompt tok)]
        else [])
      else []),
      (if sys ≠ ("") then [Message.mk ("system") sys] else []), ?_, ?_, ?_⟩
    · simp [buildMessages, List.append_assoc]
    · cases enable with
      | false => exact Or.inl (by simp)
      | true =>
        by_cases hmp : buildMediaSystemPrompt tok ≠ ("")
        · exact Or.inr ⟨rfl, mediaPromptNonemptyImpliesToken tok hmp, by simp [hmp]⟩
        · exact Or.inl (by simp [hmp])
    · by_cases hs : sys = ("")
      · exact Or.inl ⟨hs, by simp [hs]⟩
      · exact Or.inr ⟨hs, by simp [hs]⟩
  · intro h
    subst h
    by_cases hs : sys = ("") <;>
      simp [buildMessages, buildMediaSystemPrompt, hs]
  · exact getLastAppendSingleton _ _

/-- Witness for C8: media upload enabled but the token fetch failed — the
list is just the user message, which is also last. -/
theorem c8_message_assembly_witness :
    buildMessages true none ("") ("hello") = [Message.mk ("user") ("hello")] ∧
    (buildMessages true none ("") ("hello")).getLast?
      = some (Message.mk ("user") ("hello")) := by
  have h := c8_message_assembly true none ("") ("hello")
  refine ⟨?_, h.2.2⟩
  have h2 := h.2.1 rfl
  simpa using h2

theorem processChunk_of_wellFormed (c : JValue) (h : wellFormedChunk c = true) :
    processChunk c = Except.ok (specDeltaContent c) := by
  cases c with
  | null => simp [wellFormedChunk] at h
  | bool b => simp [wellFormedChunk] at h
  | num n => simp [wellFormedChunk] at h
  | str s => simp [wellFormedChunk] at h
  | arr xs => simp [wellFormedChunk] at h
  | obj fields =>
    cases hc : List.lookup ("choices") fields with
    | none =>
      simp [processChunk, pyDictGet, specDeltaContent, hc, JValue.truthy]
    | some choices =>
      simp only [wellFormedChunk, hc] at h
      by_cases ht : choices.truthy = true
      · rw [if_pos ht] at h
        cases choices with
        | null => simp [JValue.truthy] at ht
        | bool b => simp at h
        | num n => simp at h
        | str s => simp at h
        | obj o => simp at h
        | arr xs =>
          cases xs with
          | nil => simp [JValue.truthy] at ht
          | cons c0 crest =>
            cases c0 with
            | null => simp at h
            | bool b => simp at h
            | num n => simp at h
            | str s => simp at h
            | arr a => simp at h
            | obj cfields =>
              cases hd : List.lookup ("delta") cfields with
              | none =>
                simp [processChunk, pyDictGet, pyIndexZero, specDeltaContent,
                  hc, hd, JValue.truthy]
              | some dv =>
                simp only [hd] at h
                cases dv with
                | null => simp at h
                | bool b => simp at h
                | num n => simp at h
                | str s => simp at h
                | arr a => simp at h
                | obj dfields =>
                  cases hcv : List.lookup ("content") dfields with
                  | none =>
                    simp [processChunk, pyDictGet, pyIndexZero,
                      specDeltaContent, hc, hd, hcv, JValue.truthy]
                  | some cv =>
                    simp [processChunk, pyDictGet, pyIndexZero,
                      specDeltaContent, hc, hd, hcv, JValue.truthy]
      · rw [if_neg ht] at h
        have himpl : processChunk (JValue.obj fields) = Except.ok none := by
          simp [processChunk, pyDictGet, hc, ht]
        have hspec : specDeltaContent (JValue.obj fields) = none := by
          cases choices with
          | null => simp [specDeltaContent, hc]
          | bool b => simp [specDeltaContent, hc]
          | num n => simp [specDeltaContent, hc]
          | str s => simp [specDeltaContent, hc]
          | obj o => simp [specDeltaContent, hc]
          | arr xs =>
            cases xs with
            | nil => simp [specDeltaContent, hc]
            | cons x rest => exact absurd (by simp [JValue.truthy]) ht
        rw [himpl, hspec]

/-- Claim C3 (amended): for every SSE line sequence in which each
`data: `-prefixed, non-terminator, parsable payload is well-formed (a JSON
object whose truthy `choices` is a non-empty array headed by an object
with an object-or-absent `delta`), the adapter yields exactly the
non-empty `choices[0].delta.content` values of those lines, in arrival
order, until a `data: [DONE]` line ends the sequence, and raises nothing;
unprefixed lines and unparsable payloads are skipped. -/
theorem c3_stream_yields_amended (parse : String → Option JValue)
    (lines : List String) (h : ∀ l ∈ lines, lineOK parse l = true) :
    processLines parse lines = (specYields parse lines, none) := by
  induction lines with
  | nil => rfl
  | cons line rest ih =>
    have hline : lineOK parse line = true := h line (by simp)
    have hrest : processLines parse rest = (specYields parse rest, none) :=
      ih (fun l hl => h l (by simp [hl]))
    by_cases h1 : (line == ("") || !strLeads ("data: ") line) = true
    · simp [processLines, specYields, h1, hrest]
    · by_cases h2 : (strDrop line 6 == ("[DONE]")) = true
      · simp [processLines, specYields, h1, h2]
      · cases hp : parse (strDrop line 6) with
        | none => simp [processLines, specYields, h1, h2, hp, hrest]
        | some chunk =>
          have hwf : wellFormedChunk chunk = true := by
            simpa [lineOK, h1, h2, hp] using hline
          have hpc := processChunk_of_wellFormed chunk hwf
          cases hs : specDeltaContent chunk with
          | none => simp [processLines, specYields, h1, h2, hp, hpc, hs, hrest]
          | some cv => simp [processLines, specYields, h1, h2, hp, hpc, hs, hrest]

/-- Counterexample to C3 as stated: on the line sequence
`["data: [1,2]", "data: [DONE]"]`, whose first payload is valid JSON but a
JSON array rather than an object, the claim predicts that the line simply
contributes no fragment and the sequence ends cleanly at the terminator;
the code instead raises an uncaught `AttributeError` from
`chunk.get("choices", [])` (only `json.JSONDecodeError` is caught),
terminating the stream with an error. -/
theorem c3_counterexample :
    ¬ (processLines parseCE linesCE = (specYields parseCE linesCE, none)) := by
  intro h
  have h2 : (processLines parseCE linesCE).2 = none := by rw [h]
  rw [show (processLines parseCE linesCE).2
      = some ("AttributeError: object has no attribute get") from rfl] at h2
  exact Option.noConfusion h2

/-- Witness for the amended C3: a stream with two well-formed frames, an
empty line, an unprefixed line, an unparsable frame, a terminator, and a
trailing frame yields exactly `"Hi"`, `" there"` and no error. -/
theorem c3_stream_yields_amended_witness :
    processLines parseW linesW = (specYields parseW linesW, none) :=
  c3_stream_yields_amended parseW linesW (by decide)

end DingtalkMoltbot
